import Mathlib

/-!
Verification of the inference-orchestration pipeline of the food-segmentation
webapp (`webapp/app.py` and `webapp/model_loader.py`).

The Python functions are shallowly embedded as pure Lean functions.  External
effects (model availability, the detector's answer, the segmenter's two
`predict` outcomes, CUDA availability, the success of the two file writes, the
fresh UUID) are supplied through an environment record `SegEnv`, and every
observable action of a call (model invocations, file writes, cache release,
garbage collection) is recorded in an event trace, so that claims about "no
model was invoked" or "no file was written" become statements about the trace.

Machine reals: the resize-scale computation `int(width * (2048 / max(h, w)))`
is modelled twice.  `resizeDims` is the exact-real idealisation (truncated
rational scaling, expressed with natural division).  `floatResizeLarger` is a
bit-accurate model of the same source line under IEEE-754 double precision
(round-to-nearest-even), valid on the domain 2048 < w < 4096, used to settle
the numerical claim about the persisted larger dimension.
-/

/-- Observable actions of one `run_segmentation` call (`webapp/app.py`). -/
inductive SegEvent where
  | loadModels
  | detectCall
  | samSetImage
  | samPredictBox
  | samPredictPoint (x y : Int)
  | resized (h w : Nat)
  | fileWritten (path : String) (h w : Nat)
  | cudaEmptyCache
  | gcCollect
deriving DecidableEq, Repr

/-- An axis-aligned detection box `[x1, y1, x2, y2]` (`detections.xyxy`). -/
structure DetBox where
  x1 : Int
  y1 : Int
  x2 : Int
  y2 : Int
deriving DecidableEq, Repr

/-- Outcome of one `sam_predictor.predict` call: either it raises, or it
returns a mask list (masks are abstracted to identifiers; `None` from the
Python side is identified with the empty list, as the code tests
`masks is None or len(masks) == 0` with one branch). -/
inductive PredictOutcome where
  | raises
  | masks (ms : List Nat)
deriving DecidableEq, Repr

/-- Environment of one `run_segmentation` call: the answers of everything the
function consults that is external to its own control flow. -/
structure SegEnv where
  /-- `TORCH_AVAILABLE and torch is not None` (app.py line 78). -/
  torchAvailable : Bool
  /-- Return value of `load_models()` (app.py line 82). -/
  loadModelsOk : Bool
  /-- `grounding_dino is not None` after loading (app.py line 85). -/
  groundingLoaded : Bool
  /-- `sam_predictor is not None` after loading (app.py line 88). -/
  samLoaded : Bool
  /-- `cv2.imdecode` result: `none` for a failed decode, otherwise the
  decoded `(height, width)` (app.py lines 92-99). -/
  decoded : Option (Nat × Nat)
  /-- Detector answer: `none` models `detections is None`, otherwise the
  box list `detections.xyxy` (app.py lines 116-124). -/
  detect : Option (List DetBox)
  /-- Outcome of the primary box-based `predict` (app.py line 148). -/
  primaryPredict : PredictOutcome
  /-- Outcome of the fallback point-based `predict` (app.py line 175). -/
  fallbackPredict : PredictOutcome
  /-- `torch.cuda.is_available()` (app.py lines 234, 243). -/
  cudaAvailable : Bool
  /-- Whether the original-image write left a file on disk
  (`cv2.imwrite` + `os.path.exists`, app.py lines 222, 226). -/
  writeOriginalOk : Bool
  /-- Whether the result-image write left a file on disk (app.py lines
  223, 226). -/
  writeResultOk : Bool
  /-- The fresh `uuid.uuid4()` of this call (app.py line 213). -/
  uid : String

/-- A Python exception value reaching the outermost handler. -/
inductive PyError where
  | valueError (msg : String)
deriving DecidableEq, Repr

/-- How the `try`-body of `run_segmentation` ends: a normal `return`
carrying the returned pair, or an exception propagating to the outer
`except` clause. -/
inductive SegBodyResult where
  | ret (r : Option String × Option String)
  | exn (e : PyError)
deriving DecidableEq, Repr

/-- `max_size = 10 * 1024 * 1024` (app.py line 74). -/
def maxBytes : Nat := 10 * 1024 * 1024

/-- `max_dim = 2048` (app.py line 104). -/
def maxDim : Nat := 2048

/-- Interpolation flag passed to `cv2.resize` (app.py line 109). -/
def resizeInterpolation : String := "INTER_AREA"

/-- Resize step (app.py lines 104-110) under exact real arithmetic:
`scale = 2048 / max(h, w)`, `new = int(dim * scale)`, i.e. each dimension
maps to the truncation of `dim * 2048 / max h w`.  Images whose larger
dimension is at most 2048 pass through unchanged. -/
def resizeDims (h w : Nat) : Nat × Nat :=
  if max h w > maxDim then (h * maxDim / max h w, w * maxDim / max h w)
  else (h, w)

/-- `f"static/images/{unique_id}_original.png"` (app.py line 214). -/
def origPath (uid : String) : String :=
  "static/images/" ++ uid ++ "_original.png"

/-- `f"static/GeneratedImages/{unique_id}_result.png"` (app.py line 215). -/
def resPath (uid : String) : String :=
  "static/GeneratedImages/" ++ uid ++ "_result.png"

/-- Memory-cleanup block (app.py lines 233-236 and 242-245):
`torch.cuda.empty_cache()` when torch is present and CUDA reports
available, then `gc.collect()`. -/
def cleanupEvents (env : SegEnv) : List SegEvent :=
  (if env.torchAvailable && env.cudaAvailable then [SegEvent.cudaEmptyCache]
   else []) ++ [SegEvent.gcCollect]

/-- Compositing, persistence and verification (app.py lines 193-238): both
`cv2.imwrite` calls are attempted, the trace records each file that
actually materialises, then `os.path.exists` is checked for both; on
verification failure a `ValueError` is raised (caught by the outer
handler), on success the cleanup block runs and the two paths are
returned.  `h`/`w` are the (possibly resized) source dimensions; both
persisted images have them. -/
def afterMask (env : SegEnv) (h w : Nat) (evs : List SegEvent) :
    SegBodyResult × List SegEvent :=
  let po := origPath env.uid
  let pr := resPath env.uid
  let evs1 := evs
    ++ (if env.writeOriginalOk then [SegEvent.fileWritten po h w] else [])
    ++ (if env.writeResultOk then [SegEvent.fileWritten pr h w] else [])
  if env.writeOriginalOk && env.writeResultOk then
    (SegBodyResult.ret (some po, some pr), evs1 ++ cleanupEvents env)
  else
    (SegBodyResult.exn (PyError.valueError "Failed to save processed images"), evs1)

/-- Segmentation stage (app.py lines 131-191): `set_image`, then the primary
box-based `predict` on the first box inside `try`.  An *empty* primary mask
set returns `(None, None)` directly (line 157); only a *raised* primary
`predict` enters the `except` clause, which runs the fallback point-based
`predict` at the centre of the first box (lines 166-191).  An empty or
raising fallback returns `(None, None)`. -/
def segmentPhase (env : SegEnv) (b : DetBox) (h w : Nat)
    (evs : List SegEvent) : SegBodyResult × List SegEvent :=
  let evs1 := evs ++ [SegEvent.samSetImage, SegEvent.samPredictBox]
  match env.primaryPredict with
  | PredictOutcome.masks [] => (SegBodyResult.ret (none, none), evs1)
  | PredictOutcome.masks (_ :: _) => afterMask env h w evs1
  | PredictOutcome.raises =>
    let cx := Int.tdiv (b.x1 + b.x2) 2
    let cy := Int.tdiv (b.y1 + b.y2) 2
    let evs2 := evs1 ++ [SegEvent.samPredictPoint cx cy]
    match env.fallbackPredict with
    | PredictOutcome.raises => (SegBodyResult.ret (none, none), evs2)
    | PredictOutcome.masks [] => (SegBodyResult.ret (none, none), evs2)
    | PredictOutcome.masks (_ :: _) => afterMask env h w evs2

/-- Resize and detection (app.py lines 103-128): downscale when the larger
dimension exceeds 2048, call the detector; `detections is None` or an empty
`xyxy` list returns `(None, None)` (a normal outcome, not an exception);
otherwise the segmentation stage runs on the first box. -/
def detectStage (env : SegEnv) (h0 w0 : Nat) : SegBodyResult × List SegEvent :=
  let hw := resizeDims h0 w0
  let evs1 : List SegEvent :=
    if max h0 w0 > maxDim then
      [SegEvent.loadModels, SegEvent.resized hw.1 hw.2]
    else [SegEvent.loadModels]
  match env.detect with
  | none => (SegBodyResult.ret (none, none), evs1 ++ [SegEvent.detectCall])
  | some [] =>
    (SegBodyResult.ret (none, none), evs1 ++ [SegEvent.detectCall])
  | some (b :: _) =>
    segmentPhase env b hw.1 hw.2 (evs1 ++ [SegEvent.detectCall])

/-- The `try`-body of `run_segmentation` (app.py lines 66-238), in source
order: input validation (empty bytes, empty/whitespace prompt, size cap),
torch availability, `load_models()`, the two loaded-model checks, decode,
zero-dimension check, then resize/detection/segmentation. -/
def segBody (env : SegEnv) (imageBytes : List Nat) (prompt : String) :
    SegBodyResult × List SegEvent :=
  if imageBytes.isEmpty then
    (SegBodyResult.exn (PyError.valueError "No image data provided"), [])
  else if prompt.isEmpty || prompt.data.all Char.isWhitespace then
    (SegBodyResult.exn (PyError.valueError "No prompt provided"), [])
  else if imageBytes.length > maxBytes then
    (SegBodyResult.exn (PyError.valueError "Image file too large"), [])
  else if !env.torchAvailable then
    (SegBodyResult.exn (PyError.valueError "PyTorch is not available"), [])
  else if !env.loadModelsOk then
    (SegBodyResult.exn (PyError.valueError "Failed to load models"),
      [SegEvent.loadModels])
  else if !env.groundingLoaded then
    (SegBodyResult.exn (PyError.valueError "GroundingDINO model is not loaded"),
      [SegEvent.loadModels])
  else if !env.samLoaded then
    (SegBodyResult.exn (PyError.valueError "MobileSAM model is not loaded"),
      [SegEvent.loadModels])
  else
    match env.decoded with
    | none =>
      (SegBodyResult.exn (PyError.valueError "Invalid image format"),
        [SegEvent.loadModels])
    | some (h0, w0) =>
      if h0 = 0 || w0 = 0 then
        (SegBodyResult.exn (PyError.valueError "Invalid image dimensions"),
          [SegEvent.loadModels])
      else detectStage env h0 w0

/-- `run_segmentation` (app.py lines 63-246): the `try`-body, with the
outermost `except Exception` converting any raised exception into the
`(None, None)` sentinel after running the cleanup block. -/
def run_segmentation (env : SegEnv) (imageBytes : List Nat) (prompt : String) :
    (Option String × Option String) × List SegEvent :=
  match segBody env imageBytes prompt with
  | (SegBodyResult.ret r, evs) => (r, evs)
  | (SegBodyResult.exn _, evs) => ((none, none), evs ++ cleanupEvents env)

/-- Events that invoke (or load) a model capability. -/
def SegEvent.isModelCall : SegEvent → Bool
  | SegEvent.loadModels => true
  | SegEvent.detectCall => true
  | SegEvent.samSetImage => true
  | SegEvent.samPredictBox => true
  | SegEvent.samPredictPoint _ _ => true
  | _ => false

/-- Events that leave a file under the storage root. -/
def SegEvent.isFileWrite : SegEvent → Bool
  | SegEvent.fileWritten _ _ _ => true
  | _ => false

/-- Round the fraction `a / b` (with `b > 0`) to the nearest integer, ties to
even — the IEEE-754 round-to-nearest-even rule applied to an exactly
represented quotient. -/
def rneDiv (a b : Nat) : Nat :=
  let q := a / b
  let r := a % b
  if 2 * r < b then q
  else if 2 * r > b then q + 1
  else if q % 2 = 0 then q else q + 1

/-- Bit-accurate IEEE-754 double-precision model of
`int(w * (2048 / w))` (app.py lines 106-107 applied to the larger
dimension `w`), valid for `2048 < w < 4096`.

In that range `2048 / w` lies in `(1/2, 1)`, where doubles are the
multiples of `2 ^ (-53)`, so the rounded quotient is
`rneDiv (2048 * 2 ^ 53) w / 2 ^ 53`.  The product with `w` (numerator
`p`, still scaled by `2 ^ 53`) lies in `(1024, 4096)`, where doubles have
spacing `2 ^ (-42)` below 2048 and `2 ^ (-41)` from 2048 up; rounding the
product and truncating with `int` gives the returned dimension. -/
def floatResizeLarger (w : Nat) : Nat :=
  let d := rneDiv (2048 * 2 ^ 53) w
  let p := d * w
  if p < 2048 * 2 ^ 53 then rneDiv p (2 ^ 11) / 2 ^ 42
  else rneDiv p (2 ^ 12) / 2 ^ 41

/-- Observable actions of `download_file_robust`
(`webapp/model_loader.py`). -/
inductive DlEvent where
  | attemptMade (i : Nat)
  | unlinked (i : Nat)
deriving DecidableEq, Repr

/-- Environment of one `download_file_robust` call: whether the destination
already exists, which attempt indices would succeed, and whether a failed
attempt leaves a partial file behind. -/
structure DownloadEnv where
  destExists : Bool
  attemptOk : Nat → Bool
  partialLeft : Nat → Bool

/-- The retry loop of `download_file_robust` (model_loader.py lines
224-246): attempt `i` with `rem` attempts remaining (including this one).
A successful `urlretrieve` returns `True` at once; a failed attempt that is
not the last prints, removes the partial file if present, and retries; the
last failed attempt returns `False` without removing anything. -/
def downloadAttempts (env : DownloadEnv) : Nat → Nat → Bool × List DlEvent
  | _, 0 => (false, [])
  | i, rem + 1 =>
    if env.attemptOk i then (true, [DlEvent.attemptMade i])
    else if rem = 0 then (false, [DlEvent.attemptMade i])
    else
      let cleanup := if env.partialLeft i then [DlEvent.unlinked i] else []
      let rest := downloadAttempts env (i + 1) rem
      (rest.1, DlEvent.attemptMade i :: cleanup ++ rest.2)

/-- `download_file_robust` (model_loader.py lines 215-246): if the
destination exists it returns `True` immediately with no attempt;
otherwise it runs the retry loop with `maxRetries` attempts (the source
default is 3). -/
def download_file_robust (env : DownloadEnv) (maxRetries : Nat) :
    Bool × List DlEvent :=
  if env.destExists then (true, [])
  else downloadAttempts env 0 maxRetries

/-- Environment of one `load_mobile_sam_model` call (model_loader.py
lines 326-361): whether the registry/predictor globals were imported, the
registry's keys in insertion order, whether the checkpoint file exists,
and which variants' construction (`sam_model_registry[t](...)`,
`sam.to(DEVICE)`, `SamPredictor(sam)`) succeeds. -/
structure SamEnv where
  registryLoaded : Bool
  registry : List String
  predictorClassLoaded : Bool
  checkpointExists : Bool
  constructOk : String → Bool

/-- `load_mobile_sam_model` (model_loader.py lines 326-361).  The guard
`if not sam_model_registry or not SamPredictor` is falsy-aware: a `None`
registry, an *empty* registry dict, or a missing `SamPredictor` all return
`None` there.  Inside the `try`, a missing checkpoint raises and converts
to `None`; a requested `sam_type` absent from the registry is replaced by
the first registered key (`list(registry.keys())[0]`); if the registry
were empty at that point the raised `ValueError` would convert to `None`;
a construction failure converts to `None`.  The returned value names the
variant actually used to build the predictor. -/
def load_mobile_sam_model (env : SamEnv) (samType : String) : Option String :=
  if !env.registryLoaded || env.registry.isEmpty || !env.predictorClassLoaded
  then none
  else if !env.checkpointExists then none
  else
    match env.registry with
    | [] => none
    | t :: _ =>
      let chosen := if env.registry.contains samType then samType else t
      if env.constructOk chosen then some ("SamPredictor(" ++ chosen ++ ")")
      else none

/-- The two concurrent callers in the interleaving model of the
segmentation stage. -/
inductive Who where
  | A
  | B
deriving DecidableEq, Repr

/-- State of the interleaving model: the segmenter's currently primed
image (`set_image` target), each call's step counter, and the image each
call's `predict` was computed against (once it ran). -/
structure SchedState where
  primed : Option Nat
  pcA : Nat
  pcB : Nat
  basisA : Option Nat
  basisB : Option Nat
deriving DecidableEq, Repr

/-- One step of one call against the shared segmenter, exactly as in
app.py: step 0 is `sam_predictor.set_image(source_image)` (line 131),
step 1 is `sam_predictor.predict(...)` (line 148), whose mask is computed
against whatever image is primed at that moment.  There is no lock in the
source, so steps of the two calls may interleave arbitrarily. -/
def stepCall (img : Nat) (pc : Nat) (primed : Option Nat) :
    Nat × Option Nat × Option Nat :=
  match pc with
  | 0 => (1, some img, none)
  | 1 => (2, primed, primed)
  | _ => (pc, primed, none)

/-- Run a schedule (the order in which the scheduler lets the two calls
take their next step) over the shared segmenter state. -/
def runSched (imgA imgB : Nat) : List Who → SchedState → SchedState
  | [], s => s
  | Who.A :: rest, s =>
    let r := stepCall imgA s.pcA s.primed
    runSched imgA imgB rest
      { s with pcA := r.1, primed := r.2.1,
               basisA := match r.2.2 with | some v => some v | none => s.basisA }
  | Who.B :: rest, s =>
    let r := stepCall imgB s.pcB s.primed
    runSched imgA imgB rest
      { s with pcB := r.1, primed := r.2.1,
               basisB := match r.2.2 with | some v => some v | none => s.basisB }

/-- Two fresh concurrent calls (images `imgA`, `imgB`) interleaved
according to `sched`, starting from an unprimed segmenter. -/
def unlockedRun (imgA imgB : Nat) (sched : List Who) : SchedState :=
  runSched imgA imgB sched
    { primed := none, pcA := 0, pcB := 0, basisA := none, basisB := none }

/-- A fully healthy environment used for concrete instantiations: torch and
both models present, a 100x200 image that needs no resize, one detected box,
a primary mask, CUDA reported available, both writes succeeding. -/
def envBase : SegEnv :=
  { torchAvailable := true, loadModelsOk := true, groundingLoaded := true,
    samLoaded := true, decoded := some (100, 200),
    detect := some [{ x1 := 10, y1 := 20, x2 := 30, y2 := 40 }],
    primaryPredict := PredictOutcome.masks [1],
    fallbackPredict := PredictOutcome.masks [2],
    cudaAvailable := true, writeOriginalOk := true, writeResultOk := true,
    uid := "u" }

/-- Environment in which `cv2.imdecode` fails (corrupt image). -/
def envDecodeFail : SegEnv := { envBase with decoded := none }

/-- Environment in which the result-image write fails to materialise. -/
def envWriteFail : SegEnv := { envBase with writeResultOk := false }

/-- Environment whose detector returns zero boxes. -/
def envNoDetect : SegEnv := { envBase with detect := some [] }

/-- Environment in which the primary box `predict` returns an EMPTY mask
set while the point fallback would succeed. -/
def envEmptyPrimary : SegEnv :=
  { envBase with primaryPredict := PredictOutcome.masks [],
                 fallbackPredict := PredictOutcome.masks [7] }

/-- Environment in which the primary box `predict` raises and the fallback
succeeds. -/
def envPrimaryRaises : SegEnv :=
  { envBase with primaryPredict := PredictOutcome.raises }

/-- Shape invariant of the body's outcome: an exception, the `(None, None)`
sentinel, or the two canonical paths built from the call's unique id. -/
def SegBodyResult.okShape (uid : String) : SegBodyResult → Prop
  | SegBodyResult.exn _ => True
  | SegBodyResult.ret (none, none) => True
  | SegBodyResult.ret (some o, some r) => o = origPath uid ∧ r = resPath uid
  | SegBodyResult.ret _ => False

/-- Mask generation succeeded: the primary `predict` returned a non-empty
mask set, or it raised and the fallback `predict` returned a non-empty
mask set. -/
def maskGen (env : SegEnv) : Prop :=
  (∃ m ms, env.primaryPredict = PredictOutcome.masks (m :: ms)) ∨
  (env.primaryPredict = PredictOutcome.raises ∧
    ∃ m ms, env.fallbackPredict = PredictOutcome.masks (m :: ms))

/-- Number of download attempts recorded in a trace. -/
def dlAttemptCount (evs : List DlEvent) : Nat :=
  evs.countP (fun e => match e with
    | DlEvent.attemptMade _ => true
    | DlEvent.unlinked _ => false)

/-- A download environment where the file is absent and every attempt
fails, the first attempt leaving a partial file behind. -/
def envDlFail : DownloadEnv :=
  { destExists := false, attemptOk := fun _ => false,
    partialLeft := fun i => i == 0 }

/-- A SAM environment with a healthy two-entry registry whose first key is
`vit_h`, every construction succeeding. -/
def envSam : SamEnv :=
  { registryLoaded := true, registry := ["vit_h", "vit_l"],
    predictorClassLoaded := true, checkpointExists := true,
    constructOk := fun _ => true }

lemma cleanupEvents_no_model_call (env : SegEnv) :
    ∀ e ∈ cleanupEvents env, e.isModelCall = false := by
  unfold cleanupEvents
  split <;> simp [SegEvent.isModelCall]

lemma cleanupEvents_no_file_write (env : SegEnv) :
    ∀ e ∈ cleanupEvents env, e.isFileWrite = false := by
  unfold cleanupEvents
  split <;> simp [SegEvent.isFileWrite]

lemma gcCollect_mem_cleanupEvents (env : SegEnv) :
    SegEvent.gcCollect ∈ cleanupEvents env := by
  unfold cleanupEvents
  split <;> simp

lemma segBody_invalid (env : SegEnv) (ib : List Nat) (p : String)
    (h : ib.isEmpty = true ∨ (p.isEmpty || p.data.all Char.isWhitespace) = true ∨
      ib.length > maxBytes) :
    ∃ e, segBody env ib p = (SegBodyResult.exn e, []) := by
  unfold segBody
  by_cases h1 : ib.isEmpty
  · exact ⟨PyError.valueError "No image data provided", by simp [h1]⟩
  · by_cases h2 : (p.isEmpty || p.data.all Char.isWhitespace) = true
    · exact ⟨PyError.valueError "No prompt provided", by simp [h1, h2]⟩
    · have h3 : ib.length > maxBytes := by
        rcases h with h | h | h
        · exact absurd h h1
        · exact absurd h h2
        · exact h
      exact ⟨PyError.valueError "Image file too large", by simp [h1, h2, h3]⟩

/-- Claim C3: a call whose input fails validation — empty image bytes, empty
or whitespace-only prompt, or byte size strictly greater than
`10 * 1024 * 1024` — returns `(None, None)` and performs no model action at
all: no model load, no detector call, no segmenter call. -/
theorem run_segmentation_rejects_invalid_input
    (env : SegEnv) (ib : List Nat) (p : String)
    (h : ib = [] ∨ p.data.all Char.isWhitespace = true ∨
      ib.length > 10 * 1024 * 1024) :
    (run_segmentation env ib p).1 = (none, none) ∧
    ∀ e ∈ (run_segmentation env ib p).2, e.isModelCall = false := by
  have h' : ib.isEmpty = true ∨
      (p.isEmpty || p.data.all Char.isWhitespace) = true ∨
      ib.length > maxBytes := by
    rcases h with h | h | h
    · exact Or.inl (by simp [h])
    · exact Or.inr (Or.inl (by simp [h]))
    · exact Or.inr (Or.inr h)
  obtain ⟨e, he⟩ := segBody_invalid env ib p h'
  unfold run_segmentation
  rw [he]
  refine ⟨rfl, ?_⟩
  intro ev hev
  simp only [List.nil_append] at hev
  exact cleanupEvents_no_model_call env ev hev

/-- Witness for C3 at a concrete input: whitespace-only prompt. -/
theorem run_segmentation_rejects_invalid_input_witness :
    (run_segmentation envBase [1, 2] "  ").1 = (none, none) := by
  exact (run_segmentation_rejects_invalid_input envBase [1, 2] "  "
    (Or.inr (Or.inl (by decide)))).1

/-- Claim C6: `run_segmentation` never propagates an exception — a raised
body is converted to the `(None, None)` sentinel (after the cleanup block)
by the outermost handler, and a normally returning body's value is passed
through unchanged, so every call returns normally. -/
theorem run_segmentation_never_raises
    (env : SegEnv) (ib : List Nat) (p : String) :
    (∀ e evs, segBody env ib p = (SegBodyResult.exn e, evs) →
      run_segmentation env ib p = ((none, none), evs ++ cleanupEvents env)) ∧
    (∀ r evs, segBody env ib p = (SegBodyResult.ret r, evs) →
      run_segmentation env ib p = (r, evs)) := by
  constructor
  · intro e evs h
    unfold run_segmentation
    rw [h]
  · intro r evs h
    unfold run_segmentation
    rw [h]

/-- Witness for C6: a decode failure raises `ValueError` inside the body,
and the call still returns the sentinel normally. -/
theorem run_segmentation_never_raises_witness :
    run_segmentation envDecodeFail [1] "x" =
      ((none, none), SegEvent.loadModels :: cleanupEvents envDecodeFail) := by
  have h := (run_segmentation_never_raises envDecodeFail [1] "x").1
    (PyError.valueError "Invalid image format") [SegEvent.loadModels]
  simp only [List.singleton_append] at h
  apply h
  decide

lemma afterMask_okShape (env : SegEnv) (h w : Nat) (evs : List SegEvent) :
    SegBodyResult.okShape env.uid (afterMask env h w evs).1 := by
  unfold afterMask
  dsimp only
  split
  · exact ⟨rfl, rfl⟩
  · trivial

lemma segmentPhase_okShape (env : SegEnv) (b : DetBox) (h w : Nat)
    (evs : List SegEvent) :
    SegBodyResult.okShape env.uid (segmentPhase env b h w evs).1 := by
  unfold segmentPhase
  cases hp : env.primaryPredict with
  | raises =>
    dsimp only
    cases hf : env.fallbackPredict with
    | raises => trivial
    | masks ms =>
      cases ms with
      | nil => trivial
      | cons m tl => exact afterMask_okShape env h w _
  | masks ms =>
    cases ms with
    | nil => trivial
    | cons m tl => exact afterMask_okShape env h w _

lemma detectStage_okShape (env : SegEnv) (h0 w0 : Nat) :
    SegBodyResult.okShape env.uid (detectStage env h0 w0).1 := by
  unfold detectStage
  dsimp only
  cases hdet : env.detect with
  | none => trivial
  | some bs =>
    cases bs with
    | nil => trivial
    | cons b tl => exact segmentPhase_okShape env b _ _ _

/-- For a call that passes all validation (and decodes to non-degenerate
dimensions), the body is exactly the resize/detect/segment stage. -/
lemma segBody_valid (env : SegEnv) (ib : List Nat) (p : String) (h0 w0 : Nat)
    (h1 : ib.isEmpty = false)
    (h2 : (p.isEmpty || p.data.all Char.isWhitespace) = false)
    (h3 : ¬ib.length > maxBytes)
    (h4 : env.torchAvailable = true) (h5 : env.loadModelsOk = true)
    (h6 : env.groundingLoaded = true) (h7 : env.samLoaded = true)
    (hdec : env.decoded = some (h0, w0)) (h8 : ¬(h0 = 0 ∨ w0 = 0)) :
    segBody env ib p = detectStage env h0 w0 := by
  simp only [segBody, h1, h2, h3, h4, h5, h6, h7, hdec]
  simp [h8]

/-- Every call's body is either an exception whose trace is at most the
model-load event, or (validation passed) the resize/detect/segment stage. -/
lemma segBody_split (env : SegEnv) (ib : List Nat) (p : String) :
    (∃ e, segBody env ib p = (SegBodyResult.exn e, []) ∨
      segBody env ib p = (SegBodyResult.exn e, [SegEvent.loadModels])) ∨
    (∃ h0 w0, env.decoded = some (h0, w0) ∧ ¬(h0 = 0 ∨ w0 = 0) ∧
      segBody env ib p = detectStage env h0 w0) := by
  by_cases h1 : ib.isEmpty = true
  · exact Or.inl ⟨PyError.valueError "No image data provided",
      Or.inl (by simp [segBody, h1])⟩
  by_cases h2 : (p.isEmpty || p.data.all Char.isWhitespace) = true
  · exact Or.inl ⟨PyError.valueError "No prompt provided",
      Or.inl (by simp [segBody, h1, h2])⟩
  by_cases h3 : ib.length > maxBytes
  · exact Or.inl ⟨PyError.valueError "Image file too large",
      Or.inl (by simp [segBody, h1, h2, h3])⟩
  by_cases h4 : env.torchAvailable = true
  case neg =>
    exact Or.inl ⟨PyError.valueError "PyTorch is not available",
      Or.inl (by simp [segBody, h1, h2, h3, h4])⟩
  by_cases h5 : env.loadModelsOk = true
  case neg =>
    exact Or.inl ⟨PyError.valueError "Failed to load models",
      Or.inr (by simp [segBody, h1, h2, h3, h4, h5])⟩
  by_cases h6 : env.groundingLoaded = true
  case neg =>
    exact Or.inl ⟨PyError.valueError "GroundingDINO model is not loaded",
      Or.inr (by simp [segBody, h1, h2, h3, h4, h5, h6])⟩
  by_cases h7 : env.samLoaded = true
  case neg =>
    exact Or.inl ⟨PyError.valueError "MobileSAM model is not loaded",
      Or.inr (by simp [segBody, h1, h2, h3, h4, h5, h6, h7])⟩
  cases hdec : env.decoded with
  | none =>
    exact Or.inl ⟨PyError.valueError "Invalid image format",
      Or.inr (by simp [segBody, h1, h2, h3, h4, h5, h6, h7, hdec])⟩
  | some hw0 =>
    obtain ⟨h0, w0⟩ := hw0
    by_cases h8 : (h0 = 0 ∨ w0 = 0)
    · refine Or.inl ⟨PyError.valueError "Invalid image dimensions", Or.inr ?_⟩
      simp only [segBody, h1, h2, h3, h4, h5, h6, h7, hdec]
      simp [h8]
    · exact Or.inr ⟨h0, w0, rfl, h8,
        segBody_valid env ib p h0 w0 (by simp_all) (by simp_all) h3 h4 h5 h6 h7
          hdec h8⟩

lemma segBody_fst (env : SegEnv) (ib : List Nat) (p : String) :
    SegBodyResult.okShape env.uid (segBody env ib p).1 := by
  rcases segBody_split env ib p with ⟨e, he | he⟩ | ⟨h0, w0, _, _, hb⟩
  · rw [he]; trivial
  · rw [he]; trivial
  · rw [hb]; exact detectStage_okShape env h0 w0

/-- Claim C10: the pair returned by `run_segmentation` is either
`(None, None)` or two non-`None` path strings — one under `static/images/`
ending in `_original.png`, one under `static/GeneratedImages/` ending in
`_result.png`, sharing the call's fresh unique id — so no return path
yields exactly one `None` component. -/
theorem run_segmentation_result_shape (env : SegEnv) (ib : List Nat)
    (p : String) :
    (run_segmentation env ib p).1 = (none, none) ∨
    (run_segmentation env ib p).1 =
      (some ("static/images/" ++ env.uid ++ "_original.png"),
       some ("static/GeneratedImages/" ++ env.uid ++ "_result.png")) := by
  have hshape := segBody_fst env ib p
  unfold run_segmentation
  rcases hsb : segBody env ib p with ⟨r, evs⟩
  rw [hsb] at hshape
  cases r with
  | exn e => left; rfl
  | ret rr =>
    obtain ⟨o, r2⟩ := rr
    cases o with
    | none =>
      cases r2 with
      | none => left; rfl
      | some v => exact absurd hshape (by simp [SegBodyResult.okShape])
    | some ov =>
      cases r2 with
      | none => exact absurd hshape (by simp [SegBodyResult.okShape])
      | some rv =>
        obtain ⟨ho, hr⟩ := hshape
        right
        simp only [ho, hr, origPath, resPath]

lemma mem_cleanupEvents (env : SegEnv) (e : SegEvent)
    (h : e ∈ cleanupEvents env) :
    e = SegEvent.cudaEmptyCache ∨ e = SegEvent.gcCollect := by
  unfold cleanupEvents at h
  split at h <;> simp at h <;> tauto

lemma cuda_mem_cleanupEvents (env : SegEnv)
    (ht : env.torchAvailable = true) (hc : env.cudaAvailable = true) :
    SegEvent.cudaEmptyCache ∈ cleanupEvents env := by
  simp [cleanupEvents, ht, hc]

lemma afterMask_ne_ret_none (env : SegEnv) (h w : Nat)
    (evs evs2 : List SegEvent) :
    afterMask env h w evs ≠ (SegBodyResult.ret (none, none), evs2) := by
  unfold afterMask
  dsimp only
  split <;> intro hcon <;> simp at hcon

lemma afterMask_success (env : SegEnv) (h w : Nat)
    (evs evs2 : List SegEvent) (r : Option String × Option String)
    (heq : afterMask env h w evs = (SegBodyResult.ret r, evs2)) :
    r = (some (origPath env.uid), some (resPath env.uid)) ∧
    SegEvent.gcCollect ∈ evs2 ∧
    (env.torchAvailable = true → env.cudaAvailable = true →
      SegEvent.cudaEmptyCache ∈ evs2) := by
  unfold afterMask at heq
  dsimp only at heq
  split at heq
  · obtain ⟨hr, hevs⟩ := Prod.mk.injEq .. ▸ heq
    have hr' := hr
    injection heq with hr2 hevs2
    injection hr2 with hrr
    refine ⟨hrr.symm, ?_, ?_⟩
    · rw [← hevs2]
      exact List.mem_append_right _ (gcCollect_mem_cleanupEvents env)
    · intro ht hc
      rw [← hevs2]
      exact List.mem_append_right _ (cuda_mem_cleanupEvents env ht hc)
  · exact absurd heq (by simp)

lemma afterMask_ok_fst (env : SegEnv) (h w : Nat) (evs : List SegEvent)
    (ho : env.writeOriginalOk = true) (hr : env.writeResultOk = true) :
    (afterMask env h w evs).1 =
      SegBodyResult.ret (some (origPath env.uid), some (resPath env.uid)) := by
  simp [afterMask, ho, hr]

lemma afterMask_mem_mono (env : SegEnv) (h w : Nat) (evs : List SegEvent)
    (e : SegEvent) (he : e ∈ evs) : e ∈ (afterMask env h w evs).2 := by
  unfold afterMask
  dsimp only
  split <;> simp [he]

lemma mem_ite_singleton {c : Prop} [Decidable c] {x e : SegEvent}
    (h : e ∈ (if c then [x] else [])) : e = x := by
  split at h <;> simp_all

lemma afterMask_fileWritten (env : SegEnv) (h w : Nat) (evs : List SegEvent)
    (path : String) (hh ww : Nat)
    (hmem : SegEvent.fileWritten path hh ww ∈ (afterMask env h w evs).2) :
    SegEvent.fileWritten path hh ww ∈ evs ∨ (hh = h ∧ ww = w) := by
  have hcl : SegEvent.fileWritten path hh ww ∉ cleanupEvents env := by
    intro hc
    rcases mem_cleanupEvents env _ hc with hx | hx <;> cases hx
  unfold afterMask at hmem
  dsimp only at hmem
  split at hmem
  · simp only [List.mem_append] at hmem
    rcases hmem with ((hmem | hfo) | hfr) | hclm
    · exact Or.inl hmem
    · have hx := mem_ite_singleton hfo
      injection hx with h0 h1 h2
      exact Or.inr ⟨h1, h2⟩
    · have hx := mem_ite_singleton hfr
      injection hx with h0 h1 h2
      exact Or.inr ⟨h1, h2⟩
    · exact absurd hclm hcl
  · simp only [List.mem_append] at hmem
    rcases hmem with (hmem | hfo) | hfr
    · exact Or.inl hmem
    · have hx := mem_ite_singleton hfo
      injection hx with h0 h1 h2
      exact Or.inr ⟨h1, h2⟩
    · have hx := mem_ite_singleton hfr
      injection hx with h0 h1 h2
      exact Or.inr ⟨h1, h2⟩

lemma segmentPhase_ret_none (env : SegEnv) (b : DetBox) (h w : Nat)
    (evs evs2 : List SegEvent)
    (heq : segmentPhase env b h w evs = (SegBodyResult.ret (none, none), evs2)) :
    ∀ e ∈ evs2, e ∈ evs ∨ e = SegEvent.samSetImage ∨ e = SegEvent.samPredictBox ∨
      ∃ x y, e = SegEvent.samPredictPoint x y := by
  unfold segmentPhase at heq
  dsimp only at heq
  intro e hmem
  cases hp : env.primaryPredict with
  | raises =>
    rw [hp] at heq
    cases hf : env.fallbackPredict with
    | raises =>
      rw [hf] at heq
      injection heq with hr hevs
      subst hevs
      simp only [List.mem_append, List.mem_cons, List.mem_singleton] at hmem
      tauto
    | masks ms =>
      rw [hf] at heq
      cases ms with
      | nil =>
        injection heq with hr hevs
        subst hevs
        simp only [List.mem_append, List.mem_cons, List.mem_singleton] at hmem
        tauto
      | cons m tl => exact absurd heq (afterMask_ne_ret_none env h w _ _)
  | masks ms =>
    rw [hp] at heq
    cases ms with
    | nil =>
      injection heq with hr hevs
      subst hevs
      simp only [List.mem_append, List.mem_cons, List.mem_singleton] at hmem
      tauto
    | cons m tl => exact absurd heq (afterMask_ne_ret_none env h w _ _)

lemma segmentPhase_ret_some (env : SegEnv) (b : DetBox) (h w : Nat)
    (evs evs2 : List SegEvent) (o r : String)
    (heq : segmentPhase env b h w evs =
      (SegBodyResult.ret (some o, some r), evs2)) :
    SegEvent.gcCollect ∈ evs2 ∧
    (env.torchAvailable = true → env.cudaAvailable = true →
      SegEvent.cudaEmptyCache ∈ evs2) := by
  unfold segmentPhase at heq
  dsimp only at heq
  cases hp : env.primaryPredict with
  | raises =>
    rw [hp] at heq
    cases hf : env.fallbackPredict with
    | raises => rw [hf] at heq; exact absurd heq (by simp)
    | masks ms =>
      rw [hf] at heq
      cases ms with
      | nil => exact absurd heq (by simp)
      | cons m tl =>
        obtain ⟨hr, hgc, hcu⟩ := afterMask_success env h w _ evs2 _ heq
        exact ⟨hgc, hcu⟩
  | masks ms =>
    rw [hp] at heq
    cases ms with
    | nil => exact absurd heq (by simp)
    | cons m tl =>
      obtain ⟨hr, hgc, hcu⟩ := afterMask_success env h w _ evs2 _ heq
      exact ⟨hgc, hcu⟩

lemma mem_of_append_nofw {e : SegEvent} {evs suffix : List SegEvent}
    (hmem : e ∈ evs ++ suffix) (hnot : e ∉ suffix) : e ∈ evs :=
  (List.mem_append.mp hmem).resolve_right hnot

lemma segmentPhase_fileWritten (env : SegEnv) (b : DetBox) (h w : Nat)
    (evs : List SegEvent) (path : String) (hh ww : Nat)
    (hmem : SegEvent.fileWritten path hh ww ∈ (segmentPhase env b h w evs).2) :
    SegEvent.fileWritten path hh ww ∈ evs ∨
    ((hh = h ∧ ww = w) ∧ maskGen env) := by
  unfold segmentPhase at hmem
  dsimp only at hmem
  cases hp : env.primaryPredict with
  | raises =>
    rw [hp] at hmem
    cases hf : env.fallbackPredict with
    | raises =>
      rw [hf] at hmem
      rw [List.append_assoc] at hmem
      exact Or.inl (mem_of_append_nofw hmem (by simp))
    | masks ms =>
      rw [hf] at hmem
      cases ms with
      | nil =>
        rw [List.append_assoc] at hmem
        exact Or.inl (mem_of_append_nofw hmem (by simp))
      | cons m tl =>
        rcases afterMask_fileWritten env h w _ path hh ww hmem with hin | hdims
        · rw [List.append_assoc] at hin
          exact Or.inl (mem_of_append_nofw hin (by simp))
        · exact Or.inr ⟨hdims, Or.inr ⟨hp, m, tl, hf⟩⟩
  | masks ms =>
    rw [hp] at hmem
    cases ms with
    | nil => exact Or.inl (mem_of_append_nofw hmem (by simp))
    | cons m tl =>
      rcases afterMask_fileWritten env h w _ path hh ww hmem with hin | hdims
      · exact Or.inl (mem_of_append_nofw hin (by simp))
      · exact Or.inr ⟨hdims, Or.inl ⟨m, tl, hp⟩⟩

/-- Trace of the segmentation stage when the primary `predict` raises: the
fallback point `predict` at the centre of the first box is always attempted,
`(None, None)` is returned exactly when the fallback raises or returns no
masks, and a successful fallback with both writes succeeding still yields
the artifact pair. -/
lemma segmentPhase_primary_raises (env : SegEnv) (b : DetBox) (h w : Nat)
    (evs : List SegEvent) (hp : env.primaryPredict = PredictOutcome.raises) :
    SegEvent.samPredictPoint (Int.tdiv (b.x1 + b.x2) 2)
        (Int.tdiv (b.y1 + b.y2) 2) ∈ (segmentPhase env b h w evs).2 ∧
    ((env.fallbackPredict = PredictOutcome.raises ∨
        env.fallbackPredict = PredictOutcome.masks []) →
      (segmentPhase env b h w evs).1 = SegBodyResult.ret (none, none)) ∧
    (∀ m ms, env.fallbackPredict = PredictOutcome.masks (m :: ms) →
      env.writeOriginalOk = true → env.writeResultOk = true →
      (segmentPhase env b h w evs).1 =
        SegBodyResult.ret (some (origPath env.uid), some (resPath env.uid))) := by
  unfold segmentPhase
  rw [hp]
  dsimp only
  cases hf : env.fallbackPredict with
  | raises =>
    refine ⟨by simp, fun _ => rfl, ?_⟩
    intro m ms hcon
    cases hcon
  | masks ms =>
    cases ms with
    | nil =>
      refine ⟨by simp, fun _ => rfl, ?_⟩
      intro m ms hcon
      cases hcon
    | cons m tl =>
      refine ⟨?_, ?_, ?_⟩
      · exact afterMask_mem_mono env h w _ _ (by simp)
      · intro hcon
        rcases hcon with hcon | hcon <;> cases hcon
      · intro m2 ms2 hm ho hr
        exact afterMask_ok_fst env h w _ ho hr

/-- The events emitted before detection completes (model load, optional
resize, the detector call) contain no cleanup event and no file write. -/
lemma preDetect_events (_env : SegEnv) (h0 w0 : Nat) (e : SegEvent)
    (hmem : e ∈ (if max h0 w0 > maxDim then
        [SegEvent.loadModels,
          SegEvent.resized (resizeDims h0 w0).1 (resizeDims h0 w0).2]
      else [SegEvent.loadModels]) ++ [SegEvent.detectCall]) :
    e = SegEvent.loadModels ∨
    e = SegEvent.resized (resizeDims h0 w0).1 (resizeDims h0 w0).2 ∨
    e = SegEvent.detectCall := by
  rcases List.mem_append.mp hmem with hx | hx
  · split at hx <;> simp at hx <;> tauto
  · simp at hx
    tauto

lemma detectStage_noDetect (env : SegEnv) (h0 w0 : Nat)
    (hd : env.detect = none ∨ env.detect = some []) :
    detectStage env h0 w0 =
      (SegBodyResult.ret (none, none),
        (if max h0 w0 > maxDim then
            [SegEvent.loadModels,
              SegEvent.resized (resizeDims h0 w0).1 (resizeDims h0 w0).2]
          else [SegEvent.loadModels]) ++ [SegEvent.detectCall]) := by
  rcases hd with hd | hd <;> simp [detectStage, hd]

lemma detectStage_fileWritten (env : SegEnv) (h0 w0 : Nat) (path : String)
    (hh ww : Nat)
    (hmem : SegEvent.fileWritten path hh ww ∈ (detectStage env h0 w0).2) :
    (∃ b bs, env.detect = some (b :: bs)) ∧ maskGen env ∧
    hh = (resizeDims h0 w0).1 ∧ ww = (resizeDims h0 w0).2 := by
  unfold detectStage at hmem
  dsimp only at hmem
  cases hdet : env.detect with
  | none =>
    rw [hdet] at hmem
    rcases preDetect_events env h0 w0 _ hmem with hx | hx | hx <;> cases hx
  | some bs =>
    cases bs with
    | nil =>
      rw [hdet] at hmem
      rcases preDetect_events env h0 w0 _ hmem with hx | hx | hx <;> cases hx
    | cons b tl =>
      rw [hdet] at hmem
      rcases segmentPhase_fileWritten env b _ _ _ path hh ww hmem with hin | hok
      · rcases preDetect_events env h0 w0 _ hin with hx | hx | hx <;> cases hx
      · exact ⟨⟨b, tl, rfl⟩, hok.2, hok.1.1, hok.1.2⟩

lemma detectStage_ret_none (env : SegEnv) (h0 w0 : Nat)
    (evs : List SegEvent)
    (heq : detectStage env h0 w0 = (SegBodyResult.ret (none, none), evs)) :
    SegEvent.gcCollect ∉ evs ∧ SegEvent.cudaEmptyCache ∉ evs := by
  unfold detectStage at heq
  dsimp only at heq
  cases hdet : env.detect with
  | none =>
    rw [hdet] at heq
    injection heq with hr hevs
    subst hevs
    constructor <;> intro hmem <;>
      rcases preDetect_events env h0 w0 _ hmem with hx | hx | hx <;> cases hx
  | some bs =>
    cases bs with
    | nil =>
      rw [hdet] at heq
      injection heq with hr hevs
      subst hevs
      constructor <;> intro hmem <;>
        rcases preDetect_events env h0 w0 _ hmem with hx | hx | hx <;> cases hx
    | cons b tl =>
      rw [hdet] at heq
      have hall := segmentPhase_ret_none env b _ _ _ evs heq
      constructor <;> intro hmem <;>
        rcases hall _ hmem with hx | hx | hx | ⟨x, y, hx⟩
      · rcases preDetect_events env h0 w0 _ hx with hy | hy | hy <;> cases hy
      · cases hx
      · cases hx
      · cases hx
      · rcases preDetect_events env h0 w0 _ hx with hy | hy | hy <;> cases hy
      · cases hx
      · cases hx
      · cases hx

lemma detectStage_ret_some (env : SegEnv) (h0 w0 : Nat)
    (evs : List SegEvent) (o r : String)
    (heq : detectStage env h0 w0 =
      (SegBodyResult.ret (some o, some r), evs)) :
    SegEvent.gcCollect ∈ evs ∧
    (env.torchAvailable = true → env.cudaAvailable = true →
      SegEvent.cudaEmptyCache ∈ evs) := by
  unfold detectStage at heq
  dsimp only at heq
  cases hdet : env.detect with
  | none =>
    rw [hdet] at heq
    exact absurd heq (by simp)
  | some bs =>
    cases bs with
    | nil =>
      rw [hdet] at heq
      exact absurd heq (by simp)
    | cons b tl =>
      rw [hdet] at heq
      exact segmentPhase_ret_some env b _ _ _ evs o r heq

lemma run_fileWritten (env : SegEnv) (ib : List Nat) (p : String)
    (path : String) (hh ww : Nat)
    (hmem : SegEvent.fileWritten path hh ww ∈ (run_segmentation env ib p).2) :
    (∃ b bs, env.detect = some (b :: bs)) ∧ maskGen env ∧
    ∃ h0 w0, env.decoded = some (h0, w0) ∧
      hh = (resizeDims h0 w0).1 ∧ ww = (resizeDims h0 w0).2 := by
  have hcl : SegEvent.fileWritten path hh ww ∉ cleanupEvents env := by
    intro hc
    rcases mem_cleanupEvents env _ hc with hx | hx <;> cases hx
  unfold run_segmentation at hmem
  rcases segBody_split env ib p with ⟨e, he | he⟩ | ⟨h0, w0, hdec, hdims, hb⟩
  · rw [he] at hmem
    simp only [List.nil_append] at hmem
    exact absurd hmem hcl
  · rw [he] at hmem
    rcases List.mem_append.mp hmem with hx | hx
    · simp at hx
    · exact absurd hx hcl
  · rw [hb] at hmem
    rcases hds : detectStage env h0 w0 with ⟨r, evs⟩
    rw [hds] at hmem
    have hmem2 : SegEvent.fileWritten path hh ww ∈ (detectStage env h0 w0).2 := by
      rw [hds]
      cases r with
      | ret rr => exact hmem
      | exn e => exact mem_of_append_nofw hmem hcl
    obtain ⟨hdet, hmg, hhh, hww⟩ := detectStage_fileWritten env h0 w0 path hh ww hmem2
    exact ⟨hdet, hmg, h0, w0, hdec, hhh, hww⟩

/-- Claim C2 (amended): a call on which the detector returns zero boxes (or
`None`) returns `(None, None)` and writes nothing; more generally a file is
written only when detection returned at least one box and mask generation
succeeded.  (The claim's stronger clause — that *every* failure outcome
leaves the storage root unchanged — fails when the persistence verification
fails after one file was already written; see the counterexample.) -/
theorem run_segmentation_write_discipline (env : SegEnv) (ib : List Nat)
    (p : String) :
    ((env.detect = some [] ∨ env.detect = none) →
      (run_segmentation env ib p).1 = (none, none) ∧
      ∀ e ∈ (run_segmentation env ib p).2, e.isFileWrite = false) ∧
    (∀ path hh ww,
      SegEvent.fileWritten path hh ww ∈ (run_segmentation env ib p).2 →
      (∃ b bs, env.detect = some (b :: bs)) ∧ maskGen env) := by
  constructor
  · intro hzero
    have hnof : ∀ e ∈ (run_segmentation env ib p).2, e.isFileWrite = false := by
      intro e he
      cases e with
      | fileWritten path hh ww =>
        obtain ⟨⟨b, bs, hbs⟩, _⟩ := run_fileWritten env ib p path hh ww he
        rcases hzero with hz | hz <;> rw [hz] at hbs <;> cases hbs
      | _ => rfl
    refine ⟨?_, hnof⟩
    unfold run_segmentation
    rcases segBody_split env ib p with ⟨e, he | he⟩ | ⟨h0, w0, hdec, hdims, hb⟩
    · rw [he]
    · rw [he]
    · rw [hb, detectStage_noDetect env h0 w0 hzero.symm]
  · intro path hh ww hmem
    obtain ⟨hdet, hmg, _⟩ := run_fileWritten env ib p path hh ww hmem
    exact ⟨hdet, hmg⟩

/-- Counterexample to C2's universal "every failure outcome leaves the
storage root unchanged": when the result write fails, the call returns the
`(None, None)` failure sentinel, yet the original image has already been
written under the storage root. -/
theorem run_segmentation_failure_can_leave_file :
    (run_segmentation envWriteFail [1] "burger").1 = (none, none) ∧
    SegEvent.fileWritten "static/images/u_original.png" 100 200 ∈
      (run_segmentation envWriteFail [1] "burger").2 := by decide

/-- Witness for C2 (amended) at a concrete input: the detector returns
zero boxes and the call returns the sentinel. -/
theorem run_segmentation_write_discipline_witness :
    (run_segmentation envNoDetect [1] "burger").1 = (none, none) :=
  ((run_segmentation_write_discipline envNoDetect [1] "burger").1
    (Or.inl rfl)).1

/-- Claim C5 (amended): the cache-release / garbage-collection block runs
before the return on the success path and on every path that raises to the
outer handler (validation failures, persistence failure, unexpected
errors), but NOT on the early `(None, None)` returns — no detection, empty
primary mask set, failed fallback — which return without any cleanup.  (The
claim as stated — cleanup on *every* return path — fails on the no-detection
path; see the counterexample.) -/
theorem run_segmentation_cleanup_policy (env : SegEnv) (ib : List Nat)
    (p : String) :
    ((∃ evs, segBody env ib p = (SegBodyResult.ret (none, none), evs)) →
      SegEvent.gcCollect ∉ (run_segmentation env ib p).2 ∧
      SegEvent.cudaEmptyCache ∉ (run_segmentation env ib p).2) ∧
    ((∃ e evs, segBody env ib p = (SegBodyResult.exn e, evs)) →
      SegEvent.gcCollect ∈ (run_segmentation env ib p).2 ∧
      (env.torchAvailable = true → env.cudaAvailable = true →
        SegEvent.cudaEmptyCache ∈ (run_segmentation env ib p).2)) ∧
    ((∃ o r evs,
        segBody env ib p = (SegBodyResult.ret (some o, some r), evs)) →
      SegEvent.gcCollect ∈ (run_segmentation env ib p).2 ∧
      (env.torchAvailable = true → env.cudaAvailable = true →
        SegEvent.cudaEmptyCache ∈ (run_segmentation env ib p).2)) := by
  refine ⟨?_, ?_, ?_⟩
  · rintro ⟨evs, he⟩
    unfold run_segmentation
    rw [he]
    rcases segBody_split env ib p with ⟨e, hx | hx⟩ | ⟨h0, w0, hdec, hdims, hb⟩
    · rw [he] at hx
      exact absurd hx (by simp)
    · rw [he] at hx
      exact absurd hx (by simp)
    · rw [he] at hb
      exact detectStage_ret_none env h0 w0 evs hb.symm
  · rintro ⟨e, evs, he⟩
    unfold run_segmentation
    rw [he]
    exact ⟨List.mem_append_right _ (gcCollect_mem_cleanupEvents env),
      fun ht hc =>
        List.mem_append_right _ (cuda_mem_cleanupEvents env ht hc)⟩
  · rintro ⟨o, r, evs, he⟩
    unfold run_segmentation
    rw [he]
    rcases segBody_split env ib p with ⟨e, hx | hx⟩ | ⟨h0, w0, hdec, hdims, hb⟩
    · rw [he] at hx
      exact absurd hx (by simp)
    · rw [he] at hx
      exact absurd hx (by simp)
    · rw [he] at hb
      exact detectStage_ret_some env h0 w0 evs o r hb.symm

/-- Counterexample to C5: a no-detection call (CUDA reported available)
returns without the cache release or the garbage collection ever running —
its full trace is just the model-load and detector-call events. -/
theorem run_segmentation_no_cleanup_on_no_detection :
    run_segmentation envNoDetect [1] "burger" =
      ((none, none), [SegEvent.loadModels, SegEvent.detectCall]) ∧
    envNoDetect.cudaAvailable = true ∧
    SegEvent.gcCollect ∉ [SegEvent.loadModels, SegEvent.detectCall] ∧
    SegEvent.cudaEmptyCache ∉ [SegEvent.loadModels, SegEvent.detectCall] := by
  decide

/-- Witness for C5 (amended) at a concrete input: on the fully successful
call both cleanup actions are in the trace. -/
theorem run_segmentation_cleanup_policy_witness :
    SegEvent.gcCollect ∈ (run_segmentation envBase [1] "burger").2 ∧
    SegEvent.cudaEmptyCache ∈ (run_segmentation envBase [1] "burger").2 := by
  have h := (run_segmentation_cleanup_policy envBase [1] "burger").2.2
    ⟨"static/images/u_original.png", "static/GeneratedImages/u_result.png",
      [SegEvent.loadModels, SegEvent.detectCall, SegEvent.samSetImage,
        SegEvent.samPredictBox,
        SegEvent.fileWritten "static/images/u_original.png" 100 200,
        SegEvent.fileWritten "static/GeneratedImages/u_result.png" 100 200,
        SegEvent.cudaEmptyCache, SegEvent.gcCollect], by decide⟩
  exact ⟨h.1, h.2 rfl rfl⟩

/-- Claim C1 (amended): for a call that reaches the segmentation stage with
at least one detected box, the point-based fallback (a single foreground
point at the centre of the first box) is attempted exactly when the primary
box-based `predict` RAISES; in that case, `(None, None)` is returned only
when the fallback also raises or returns no masks, and a succeeding
fallback still yields the artifact pair.  (The claim's other trigger — a
primary call that *returns an empty mask set* — does NOT reach the
fallback: the code returns `(None, None)` immediately from inside the
`try`; see the counterexample.) -/
theorem run_segmentation_fallback_on_raise (env : SegEnv) (ib : List Nat)
    (p : String) (h0 w0 : Nat) (b : DetBox) (bs : List DetBox)
    (h1 : ib.isEmpty = false)
    (h2 : (p.isEmpty || p.data.all Char.isWhitespace) = false)
    (h3 : ¬ib.length > maxBytes)
    (h4 : env.torchAvailable = true) (h5 : env.loadModelsOk = true)
    (h6 : env.groundingLoaded = true) (h7 : env.samLoaded = true)
    (hdec : env.decoded = some (h0, w0)) (h8 : ¬(h0 = 0 ∨ w0 = 0))
    (hdet : env.detect = some (b :: bs))
    (hp : env.primaryPredict = PredictOutcome.raises) :
    SegEvent.samPredictPoint (Int.tdiv (b.x1 + b.x2) 2)
        (Int.tdiv (b.y1 + b.y2) 2) ∈ (run_segmentation env ib p).2 ∧
    ((env.fallbackPredict = PredictOutcome.raises ∨
        env.fallbackPredict = PredictOutcome.masks []) →
      (run_segmentation env ib p).1 = (none, none)) ∧
    (∀ m ms, env.fallbackPredict = PredictOutcome.masks (m :: ms) →
      env.writeOriginalOk = true → env.writeResultOk = true →
      (run_segmentation env ib p).1 =
        (some (origPath env.uid), some (resPath env.uid))) := by
  have hb := segBody_valid env ib p h0 w0 h1 h2 h3 h4 h5 h6 h7 hdec h8
  have hd : detectStage env h0 w0 =
      segmentPhase env b (resizeDims h0 w0).1 (resizeDims h0 w0).2
        ((if max h0 w0 > maxDim then
            [SegEvent.loadModels,
              SegEvent.resized (resizeDims h0 w0).1 (resizeDims h0 w0).2]
          else [SegEvent.loadModels]) ++ [SegEvent.detectCall]) := by
    simp [detectStage, hdet]
  have hsp := segmentPhase_primary_raises env b
    (resizeDims h0 w0).1 (resizeDims h0 w0).2
    ((if max h0 w0 > maxDim then
        [SegEvent.loadModels,
          SegEvent.resized (resizeDims h0 w0).1 (resizeDims h0 w0).2]
      else [SegEvent.loadModels]) ++ [SegEvent.detectCall]) hp
  unfold run_segmentation
  rw [hb, hd]
  rcases hsp2 : segmentPhase env b (resizeDims h0 w0).1 (resizeDims h0 w0).2
      ((if max h0 w0 > maxDim then
          [SegEvent.loadModels,
            SegEvent.resized (resizeDims h0 w0).1 (resizeDims h0 w0).2]
        else [SegEvent.loadModels]) ++ [SegEvent.detectCall])
    with ⟨r, evs⟩
  rw [hsp2] at hsp
  obtain ⟨hpt, hnone, hsucc⟩ := hsp
  refine ⟨?_, ?_, ?_⟩
  · cases r with
    | ret rr => exact hpt
    | exn e => exact List.mem_append_left _ hpt
  · intro hfb
    have hr := hnone hfb
    cases r with
    | ret rr => injection hr with hrr
    | exn e => rfl
  · intro m ms hm ho hw2
    have hr := hsucc m ms hm ho hw2
    cases r with
    | ret rr => injection hr with hrr
    | exn e =>
      simp only at hr
      cases hr

/-- Counterexample to C1 as stated: the primary `predict` returns an empty
mask set and the fallback would succeed (`fallbackPredict` is a non-empty
mask list), yet the call returns `(None, None)` immediately — the trace
ends at the box `predict`, with no point-based fallback attempt. -/
theorem run_segmentation_empty_primary_skips_fallback :
    run_segmentation envEmptyPrimary [1] "burger" =
      ((none, none),
        [SegEvent.loadModels, SegEvent.detectCall, SegEvent.samSetImage,
          SegEvent.samPredictBox]) ∧
    envEmptyPrimary.fallbackPredict = PredictOutcome.masks [7] := by decide

/-- Witness for C1 (amended) at a concrete input: primary raises, fallback
succeeds, the call still returns the artifact pair. -/
theorem run_segmentation_fallback_on_raise_witness :
    (run_segmentation envPrimaryRaises [1] "burger").1 =
      (some (origPath "u"), some (resPath "u")) := by
  have h := run_segmentation_fallback_on_raise envPrimaryRaises [1] "burger"
    100 200 { x1 := 10, y1 := 20, x2 := 30, y2 := 40 } []
    (by decide) (by decide) (by decide) rfl rfl rfl rfl rfl (by decide)
    rfl rfl
  exact h.2.2 2 [] rfl rfl rfl

/-- The rounded quotient is within half an ulp: `rneDiv a b` differs from
`a / b` by at most `1 / 2` (stated multiplied out over `ℕ`). -/
lemma rneDiv_bounds (a b : Nat) (hb : 0 < b) :
    2 * a ≤ 2 * (b * rneDiv a b) + b ∧ 2 * (b * rneDiv a b) ≤ 2 * a + b := by
  have hq := Nat.div_add_mod a b
  have hr : a % b < b := Nat.mod_lt a hb
  unfold rneDiv
  dsimp only
  split_ifs with hc1 hc2 hc3 <;>
    (try rw [Nat.mul_add, Nat.mul_one]) <;>
    (generalize hbt : b * (a / b) = t at hq ⊢) <;>
    omega

/-- Under IEEE-754 double precision the resized larger dimension lands in
`{2047, 2048}` for every source width in `(2048, 4096)`. -/
lemma floatResizeLarger_bounds (w : Nat) (hlo : 2048 < w) (hhi : w < 4096) :
    2047 ≤ floatResizeLarger w ∧ floatResizeLarger w ≤ 2048 := by
  have hw : 0 < w := by omega
  have hd := rneDiv_bounds (2048 * 2 ^ 53) w hw
  rw [Nat.mul_comm w (rneDiv (2048 * 2 ^ 53) w)] at hd
  unfold floatResizeLarger
  dsimp only
  generalize hp : rneDiv (2048 * 2 ^ 53) w * w = p at hd ⊢
  norm_num at hd ⊢
  split_ifs with hc
  · have hv := rneDiv_bounds p (2 ^ 11) (by norm_num)
    generalize hvv : rneDiv p (2 ^ 11) = v at hv ⊢
    norm_num at hv ⊢
    omega
  · have hv := rneDiv_bounds p (2 ^ 12) (by norm_num)
    generalize hvv : rneDiv p (2 ^ 12) = v at hv ⊢
    norm_num at hv ⊢
    omega

/-- Claim C4 (amended): when the larger decoded dimension exceeds 2048,
both dimensions are scaled by the same factor `2048 / max h w` with integer
truncation — under exact real arithmetic the resized pair is exactly the
floor of each dimension times that factor, and the larger resized dimension
equals 2048; images at or below 2048 pass through unresized; and every file
the pipeline persists carries exactly the resized dimensions.  Under the
code's IEEE-754 double-precision evaluation of `int(dim * (2048 / max))`,
however, the larger dimension is only guaranteed to land in
`{2047, 2048}` — it is 2047 for some widths (see the counterexample) — so
the claim's "equals 2048" holds only for the idealised arithmetic. -/
theorem resizeDims_spec (h w : Nat) (hh : 0 < h) (hw : 0 < w) :
    (max h w > maxDim →
      (resizeDims h w).1 =
        ⌊(h : ℚ) * ((maxDim : ℚ) / ((max h w : ℕ) : ℚ))⌋₊ ∧
      (resizeDims h w).2 =
        ⌊(w : ℚ) * ((maxDim : ℚ) / ((max h w : ℕ) : ℚ))⌋₊ ∧
      max (resizeDims h w).1 (resizeDims h w).2 = maxDim) ∧
    (max h w ≤ maxDim → resizeDims h w = (h, w)) ∧
    (∀ env ib p path hh2 ww2, env.decoded = some (h, w) →
      SegEvent.fileWritten path hh2 ww2 ∈ (run_segmentation env ib p).2 →
      hh2 = (resizeDims h w).1 ∧ ww2 = (resizeDims h w).2) ∧
    (∀ v, 2048 < v → v < 4096 →
      2047 ≤ floatResizeLarger v ∧ floatResizeLarger v ≤ 2048) := by
  have hmaxpos : 0 < max h w := lt_of_lt_of_le hh (Nat.le_max_left h w)
  have hfloor : ∀ d : Nat, (d * maxDim) / max h w =
      ⌊(d : ℚ) * ((maxDim : ℚ) / ((max h w : ℕ) : ℚ))⌋₊ := by
    intro d
    rw [mul_div_assoc']
    rw [show ((d : ℚ) * maxDim = ((d * maxDim : ℕ) : ℚ)) by push_cast; ring]
    rw [Nat.floor_div_nat ((d * maxDim : ℕ) : ℚ) (max h w)]
    rw [Nat.floor_natCast]
  refine ⟨?_, ?_, ?_, ?_⟩
  · intro hgt
    have hres : resizeDims h w = (h * maxDim / max h w, w * maxDim / max h w) := by
      simp [resizeDims, hgt]
    refine ⟨by rw [hres]; exact hfloor h, by rw [hres]; exact hfloor w, ?_⟩
    rw [hres]
    dsimp only
    rcases Nat.le_total h w with hle | hle
    · have hmax : max h w = w := Nat.max_eq_right hle
      rw [hmax]
      have h2 : w * maxDim / w = maxDim := by
        rw [Nat.mul_comm]
        exact Nat.mul_div_cancel maxDim (by omega)
      have h1 : h * maxDim / w ≤ maxDim := by
        calc h * maxDim / w ≤ w * maxDim / w :=
              Nat.div_le_div_right (Nat.mul_le_mul_right maxDim hle)
          _ = maxDim := h2
      rw [h2]
      exact Nat.max_eq_right h1
    · have hmax : max h w = h := Nat.max_eq_left hle
      rw [hmax]
      have h2 : h * maxDim / h = maxDim := by
        rw [Nat.mul_comm]
        exact Nat.mul_div_cancel maxDim (by omega)
      have h1 : w * maxDim / h ≤ maxDim := by
        calc w * maxDim / h ≤ h * maxDim / h :=
              Nat.div_le_div_right (Nat.mul_le_mul_right maxDim hle)
          _ = maxDim := h2
      rw [h2]
      exact Nat.max_eq_left h1
  · intro hle
    simp [resizeDims, Nat.not_lt.mpr hle]
  · intro env ib p path hh2 ww2 hdec hmem
    obtain ⟨_, _, h0, w0, hdec2, hhh, hww⟩ :=
      run_fileWritten env ib p path hh2 ww2 hmem
    rw [hdec] at hdec2
    injection hdec2 with hpair
    injection hpair with hhp hwp
    rw [hhp, hwp]
    exact ⟨hhh, hww⟩
  · exact fun v hlo hhi => floatResizeLarger_bounds v hlo hhi

/-- Counterexample to C4 as stated: for a decodable 100x2215 image the
exact-arithmetic model resizes the larger dimension to 2048, but the
bit-accurate IEEE-754 double model of the very same source expression
`int(2215 * (2048 / 2215))` yields 2047 — the persisted original's larger
dimension does NOT equal 2048 on the real float semantics. -/
theorem resize_float_counterexample :
    resizeDims 100 2215 = (92, 2048) ∧
    floatResizeLarger 2215 = 2047 ∧ (2047 : Nat) ≠ 2048 := by decide

/-- Witness for C4 (amended): the spec's own scenario, a 1500x3000 image,
resizes to 1024x2048 with larger dimension 2048. -/
theorem resizeDims_spec_witness :
    max (resizeDims 1500 3000).1 (resizeDims 1500 3000).2 = maxDim :=
  ((resizeDims_spec 1500 3000 (by decide) (by decide)).1 (by decide)).2.2

lemma downloadAttempts_count (env : DownloadEnv) (i rem : Nat) :
    dlAttemptCount (downloadAttempts env i rem).2 ≤ rem := by
  induction rem generalizing i with
  | zero => simp [downloadAttempts, dlAttemptCount]
  | succ rem ih =>
    by_cases hok : env.attemptOk i = true
    · simp [downloadAttempts, hok, dlAttemptCount]
    · by_cases hlast : rem = 0
      · simp [downloadAttempts, hok, hlast, dlAttemptCount]
      · have hrec := ih (i + 1)
        have hcl : dlAttemptCount
            (if env.partialLeft i then [DlEvent.unlinked i] else []) = 0 := by
          split <;> simp [dlAttemptCount]
        have hstep : downloadAttempts env i (rem + 1) =
            ((downloadAttempts env (i + 1) rem).1,
              DlEvent.attemptMade i ::
                ((if env.partialLeft i then [DlEvent.unlinked i] else []) ++
                  (downloadAttempts env (i + 1) rem).2)) := by
          simp [downloadAttempts, hok, hlast]
        rw [hstep]
        simp only [dlAttemptCount, List.countP_cons, List.countP_append]
          at hrec hcl ⊢
        norm_num
        omega

/-- Claim C7: `download_file_robust` is idempotent on an existing asset —
if the destination exists it returns `True` with no attempt — and otherwise
makes at most `max_retries = 3` attempts; when every attempt fails it
returns `False` (it never raises: it is a total function), with the partial
file removed between consecutive failed attempts (and only there: none
after the last). -/
theorem download_file_robust_spec (env : DownloadEnv) :
    (env.destExists = true → download_file_robust env 3 = (true, [])) ∧
    dlAttemptCount (download_file_robust env 3).2 ≤ 3 ∧
    (env.destExists = false → (∀ i, i < 3 → env.attemptOk i = false) →
      download_file_robust env 3 =
        (false,
          DlEvent.attemptMade 0 ::
            ((if env.partialLeft 0 then [DlEvent.unlinked 0] else []) ++
              (DlEvent.attemptMade 1 ::
                ((if env.partialLeft 1 then [DlEvent.unlinked 1] else []) ++
                  [DlEvent.attemptMade 2]))))) := by
  refine ⟨?_, ?_, ?_⟩
  · intro hde
    simp [download_file_robust, hde]
  · by_cases hde : env.destExists = true
    · simp [download_file_robust, hde, dlAttemptCount]
    · simp only [download_file_robust, hde, if_false, Bool.false_eq_true]
      exact downloadAttempts_count env 0 3
  · intro hde hfail
    have hf0 := hfail 0 (by omega)
    have hf1 := hfail 1 (by omega)
    have hf2 := hfail 2 (by omega)
    simp [download_file_robust, hde, downloadAttempts, hf0, hf1, hf2]

/-- Witness for C7 at a concrete environment: three failed attempts, one
partial-file removal between attempts 0 and 1, and a `False` result. -/
theorem download_file_robust_spec_witness :
    download_file_robust envDlFail 3 =
      (false, [DlEvent.attemptMade 0, DlEvent.unlinked 0,
        DlEvent.attemptMade 1, DlEvent.attemptMade 2]) := by
  have h := (download_file_robust_spec envDlFail).2.2 rfl (fun i _ => rfl)
  simpa using h

/-- Claim C8: when the requested variant tag is absent from a non-empty
registry, `load_mobile_sam_model` builds the predictor from the FIRST
registered variant; an empty registry (falsy in the guard) yields `None`;
and a failing construction yields `None` — the function is total and never
raises to its caller. -/
theorem load_mobile_sam_model_spec (env : SamEnv) (samType : String) :
    (env.registry = [] → load_mobile_sam_model env samType = none) ∧
    (∀ t rest, env.registry = t :: rest →
      env.registryLoaded = true → env.predictorClassLoaded = true →
      env.checkpointExists = true →
      (env.registry.contains samType = false →
        load_mobile_sam_model env samType =
          (if env.constructOk t then some ("SamPredictor(" ++ t ++ ")")
            else none)) ∧
      (env.constructOk
          (if env.registry.contains samType then samType else t) = false →
        load_mobile_sam_model env samType = none)) := by
  constructor
  · intro hr
    simp [load_mobile_sam_model, hr]
  · intro t rest hr hl hp2 hc
    constructor
    · intro hcont
      rw [hr] at hcont
      have hnot : ¬(samType = t ∨ samType ∈ rest) := by simpa using hcont
      simp [load_mobile_sam_model, hr, hl, hp2, hc, hnot]
    · intro hco
      rw [hr] at hco
      simp only [load_mobile_sam_model, hr, hl, hp2, hc]
      simp at hco
      simp [hco]

/-- Witness for C8: requesting the absent `vit_t` variant falls back to
the first registered variant `vit_h`. -/
theorem load_mobile_sam_model_spec_witness :
    load_mobile_sam_model envSam "vit_t" = some "SamPredictor(vit_h)" := by
  have h := ((load_mobile_sam_model_spec envSam "vit_t").2 "vit_h" ["vit_l"]
    rfl rfl rfl rfl).1 (by decide)
  simpa using h

/-- Claim C9: the code's segmentation stage takes NO lock around
`set_image` + `predict` (app.py lines 131-153), so under the interleaving
`A.set_image, B.set_image, A.predict, B.predict` call A's mask is computed
against call B's primed image — the serialization invariant the design
requires is violated by the implementation, while the serialized schedule
`A.set_image, A.predict, B.set_image, B.predict` behaves correctly. -/
theorem unlocked_interleaving_mixes_images :
    (unlockedRun 0 1 [Who.A, Who.B, Who.A, Who.B]).basisA = some 1 ∧
    (some 1 : Option Nat) ≠ some 0 ∧
    (unlockedRun 0 1 [Who.A, Who.A, Who.B, Who.B]).basisA = some 0 ∧
    (unlockedRun 0 1 [Who.A, Who.A, Who.B, Who.B]).basisB = some 1 := by
  decide
